import Mathlib

/-!
# SQLPilot — verification of the agent orchestration core

A shallow embedding of the SQLPilot repository's verification/safety layer and
agent orchestration loop, together with proofs about the spec's claims.

Embedded source files:
* `sqlpilot/utils/security.py`  — `SecurityGuard.validate_sql`, `SecurityGuard.enforce_limit`
* `sqlpilot/core/tools.py`      — `AgentTools.execute_and_compare`, `AgentTools.measure_performance`
* `sqlpilot/core/agent.py`      — `SQLAgent.optimize` (tool dispatch, final-answer parsing,
  iterative feedback loop, iteration budget)

Modelling conventions:
* Python `str` is modelled as Lean `String` (a wrapper around `List Char`);
  the character-level helpers below mirror the exact Python string operations
  used by the source (`in`, `split`, `strip`, `upper`, slicing).
* External collaborators (database adapter, LLM client, `json.loads`,
  `time.perf_counter`) are parameters (oracles) of the embedded functions;
  the functions record the SQL statements they hand to the database so that
  "never reaches the database" is expressible.
* Python exceptions are modelled with `Except String`; an uncaught exception
  propagating out of a function is an `Except.error`.
* Wall-clock durations and JSON numbers are modelled as rationals.
-/

namespace SQLPilot

/-! ## Python string primitives (character-list level) -/

/-- Boolean "is `n` a prefix of `h`" on character lists (structural, so that
concrete instances reduce definitionally). -/
def startsW : List Char → List Char → Bool
  | [], _ => true
  | _ :: _, [] => false
  | a :: as, b :: bs => a == b && startsW as bs

/-- Python's substring test `n in h` on character lists. -/
def containsSub (n : List Char) : List Char → Bool
  | [] => startsW n []
  | c :: t => startsW n (c :: t) || containsSub n t

/-- Python's whitespace predicate used by `str.strip()`. -/
def pyWS (c : Char) : Bool :=
  c = ' ' || c = '\t' || c = '\n' || c = '\x0d' || c = '\x0b' || c = '\x0c'

/-- Python `str.strip()`: remove leading and trailing whitespace. -/
def pyStrip (l : List Char) : List Char :=
  ((l.dropWhile pyWS).reverse.dropWhile pyWS).reverse

/-- Python `str.upper()` (ASCII, which covers the SQL keywords involved). -/
def pyUpper (l : List Char) : List Char := l.map Char.toUpper

/-- First occurrence split: `findSplit sep s = some (before, after)` when `sep`
occurs in `s`, where `before` is the text before the first occurrence and
`after` the text after it; `none` when `sep` does not occur. -/
def findSplit (sep : List Char) : List Char → Option (List Char × List Char)
  | [] => if startsW sep [] then some ([], []) else none
  | c :: t =>
    if startsW sep (c :: t) then some ([], (c :: t).drop sep.length)
    else match findSplit sep t with
      | some (b, a) => some (c :: b, a)
      | none => none

/-- Stable insertion into a `le`-sorted list (insertion after equal elements,
matching the stability of Python's `sorted`). -/
def insLe (le : α → α → Bool) (x : α) : List α → List α
  | [] => [x]
  | y :: ys => if le x y then x :: y :: ys else y :: insLe le x ys

/-- Stable ascending sort, modelling Python's `sorted`. -/
def sortLe (le : α → α → Bool) (l : List α) : List α :=
  l.foldr (insLe le) []

/-- Lexicographic (code-point) order on character lists, modelling Python's
`<=` on strings, used by `json.dumps(..., sort_keys=True)`. -/
def lexLe : List Char → List Char → Bool
  | [], _ => true
  | _ :: _, [] => false
  | a :: as, b :: bs => a < b || (a == b && lexLe as bs)

/-! ## `sqlpilot/utils/security.py` — `SecurityGuard` -/

/-- Structure `SecurityConfig` (from `sqlpilot/core/config.py`), with its defaults. -/
structure SecurityConfig where
  forbidden_operations : List String :=
    ["DROP", "TRUNCATE", "DELETE", "UPDATE", "INSERT", "ALTER", "GRANT", "REVOKE"]
  max_result_rows : Nat := 10000

/-- The default `SecurityConfig`. -/
def defaultSecurity : SecurityConfig := {}

/-- Word characters per the regex class `\w` (ASCII fragment). -/
def wordChar (c : Char) : Bool := c.isAlphanum || c = '_'

/-- Case-insensitive match of `op` against a prefix of `s`. -/
def ciStarts : List Char → List Char → Bool
  | [], _ => true
  | _ :: _, [] => false
  | o :: os, c :: cs => Char.toLower o == Char.toLower c && ciStarts os cs

/-- Does a whole-word, case-insensitive occurrence of `op` start here, given the
previous character `prev` (`none` at the start of the text)?  Models a match of
`re.compile(rf"\b{op}\b", re.IGNORECASE)` at this position, for `op` made of
word characters (all the configured operations are plain keywords). -/
def wordAt (op s : List Char) (prev : Option Char) : Bool :=
  (match prev with
   | none => true
   | some c => !wordChar c)
  && ciStarts op s
  && (match s.drop op.length with
      | [] => true
      | c :: _ => !wordChar c)

/-- Scan of `s` for a whole-word case-insensitive occurrence of `op`;
`prev` is the character immediately before `s` in the full text. -/
def scanWord (op : List Char) : Option Char → List Char → Bool
  | prev, [] => wordAt op [] prev
  | prev, c :: cs => wordAt op (c :: cs) prev || scanWord op (some c) cs

/-- Models `re.search(rf"\b{op}\b", sql, re.IGNORECASE) is not None`. -/
def containsWord (op s : List Char) : Bool := scanWord op none s

/-- Function `SecurityGuard.validate_sql` (security.py lines 13–34).  Checks the
forbidden-operation patterns in list order, then the multi-statement check
`";" in sql.strip()[:-1]`; the comment-token branch (`--`, `/*`) of the source
is an explicit no-op (`pass`). -/
def validate_sql (cfg : SecurityConfig) (sql : String) : Bool × Option String :=
  match cfg.forbidden_operations.find? (fun op => containsWord op.data sql.data) with
  | some op => (false, some ("Forbidden operation detected: \\b" ++ op ++ "\\b"))
  | none =>
    if ((pyStrip sql.data).dropLast).contains ';' then
      (false, some "Multiple statements are not allowed for security reasons")
    else
      (true, none)

/-- Function `SecurityGuard.enforce_limit` (security.py lines 36–43):
`if "LIMIT" not in sql.upper(): return f"{sql} LIMIT {max_result_rows}"`. -/
def enforce_limit (cfg : SecurityConfig) (sql : String) : String :=
  if containsSub "LIMIT".data (pyUpper sql.data) then sql
  else sql ++ " LIMIT " ++ Nat.repr cfg.max_result_rows

/-! ## `sqlpilot/core/tools.py` — `AgentTools`

The database adapter returns each row as a dict of column name to scalar value
(the MySQL driver yields scalars), modelled by `Row` below.  `execute_query`
is an oracle `String → Except String (List Row)`: an `Except.error` models the
adapter raising.  Each embedded tool additionally returns the list (resp.
count) of SQL statements it actually handed to the adapter, so that safety
claims about "reaching the database" are expressible. -/

/-- A scalar database value, as produced by the database adapter. -/
inductive DBVal where
  | null
  | bool (b : Bool)
  | num (q : ℚ)
  | str (s : String)
deriving DecidableEq

/-- One result row: an ordered mapping from column name to value. -/
abbrev Row := List (String × DBVal)

/-- Key order used by `json.dumps(..., sort_keys=True)`: code-point order on
the key strings. -/
def keyLe (a b : String × DBVal) : Bool := lexLe a.1.data b.1.data

/-- The content digest of a result set, modelling
`hashlib.md5(json.dumps(res, sort_keys=True, default=str).encode()).hexdigest()`
(tools.py lines 77–78).  `sort_keys=True` sorts the keys inside each row dict;
the order of the rows in the list is preserved by `json.dumps`.  The md5 of the
stable serialization is modelled by the key-sorted structure itself (two result
sets collide exactly when their stable serializations coincide). -/
def digestRows (rows : List Row) : List Row :=
  rows.map (fun r => sortLe keyLe r)

/-- Outcome of `AgentTools.execute_and_compare`, i.e. the JSON payload it
serializes: `{"status": "error"|"failed"|"passed", ...}`. -/
inductive CompareResult where
  | error (message : String)
  | failed_row_count (original_rows optimized_rows : Nat)
  | failed_content
  | passed (rows : Nat)

/-- Function `AgentTools.execute_and_compare` (tools.py lines 40–94).  Returns the
comparison outcome together with the list of SQL texts passed to
`db.execute_query`, in order. -/
def execute_and_compare (cfg : SecurityConfig) (db : String → Except String (List Row))
    (original_sql optimized_sql : String) : CompareResult × List String :=
  match validate_sql cfg original_sql with
  | (false, err_orig) =>
    (.error ("Original SQL unsafe: " ++ err_orig.getD ""), [])
  | (true, _) =>
    match validate_sql cfg optimized_sql with
    | (false, err_opt) =>
      (.error ("Optimized SQL unsafe: " ++ err_opt.getD ""), [])
    | (true, _) =>
      let limited_orig := enforce_limit cfg original_sql
      let limited_opt := enforce_limit cfg optimized_sql
      match db limited_orig with
      | .error e => (.error ("Execution failed: " ++ e), [limited_orig])
      | .ok res_orig =>
        match db limited_opt with
        | .error e => (.error ("Execution failed: " ++ e), [limited_orig, limited_opt])
        | .ok res_opt =>
          if res_orig.length ≠ res_opt.length then
            (.failed_row_count res_orig.length res_opt.length, [limited_orig, limited_opt])
          else if digestRows res_orig ≠ digestRows res_opt then
            (.failed_content, [limited_orig, limited_opt])
          else
            (.passed res_orig.length, [limited_orig, limited_opt])

/-- Outcome of `AgentTools.measure_performance`: either the timing summary JSON
or an error payload `{"error": msg}`. -/
inductive MeasureResult where
  | summary (min_ms max_ms avg_ms median_ms : ℚ) (runs : Nat)
  | error (msg : String)

/-- Python `min(l)` for nonempty `l` (the caller guards the empty case, where
Python raises `ValueError`). -/
def pyMinD : List ℚ → ℚ
  | [] => 0
  | x :: xs => xs.foldl min x

/-- Python `max(l)` for nonempty `l`. -/
def pyMaxD : List ℚ → ℚ
  | [] => 0
  | x :: xs => xs.foldl max x

/-- Rational comparison used when sorting timing samples. -/
def qLe (a b : ℚ) : Bool := a ≤ b

/-- The timing loop of `measure_performance` (tools.py lines 107–111): run the
statement `n` more times starting at run index `i`.  `run j` is the outcome of
the `j`-th `db.execute_query` call (an `Except.error` models the adapter
raising, which aborts the loop) and `times j` the wall-clock duration of that
run in milliseconds.  Returns the collected samples (or the first error) and
the number of database executions performed. -/
def runTimes (run : Nat → Except String Unit) (times : Nat → ℚ) :
    Nat → Nat → Except String (List ℚ) × Nat
  | _, 0 => (.ok [], 0)
  | i, n + 1 =>
    match run i with
    | .error e => (.error e, 1)
    | .ok _ =>
      let (r, c) := runTimes run times (i + 1) n
      (r.map (times i :: ·), c + 1)

/-- Function `AgentTools.measure_performance` (tools.py lines 96–121).  Returns the
outcome and the number of `db.execute_query` calls made.  With zero samples the
source's `min(times)` raises `ValueError`, which the surrounding
`except Exception` turns into an error payload. -/
def measure_performance (cfg : SecurityConfig) (run : Nat → Except String Unit)
    (times : Nat → ℚ) (sql : String) (runs : Nat) : MeasureResult × Nat :=
  match validate_sql cfg sql with
  | (false, err) => (.error (err.getD ""), 0)
  | (true, _) =>
    match runTimes run times 0 runs with
    | (.error e, c) => (.error e, c)
    | (.ok ts, c) =>
      if ts.isEmpty then
        (.error "min() arg is an empty sequence", c)
      else
        (.summary (pyMinD ts) (pyMaxD ts) (ts.sum / (ts.length : ℚ))
          ((sortLe qLe ts).getD (ts.length / 2) 0) runs, c)

/-! ## `sqlpilot/core/agent.py` — `SQLAgent.optimize`

The LLM collaborator is an oracle mapping the conversation so far to the next
assistant message (the history strictly grows, so any scripted sequence of
replies is representable).  `json.loads` is an oracle `String → Option JVal`
(`none` models a `json.JSONDecodeError`); the textual form of a JSON number
under Python's `str` is an oracle `ℚ → String` (float formatting lives outside
the embedding). -/

/-- A parsed JSON value (`json.loads` result). -/
inductive JVal where
  | null
  | bool (b : Bool)
  | num (q : ℚ)
  | str (s : String)
  | arr (xs : List JVal)
  | obj (kvs : List (String × JVal))

/-- Python `==` between a parsed JSON value and a string literal (only a `str`
compares equal to a `str`). -/
def pyEqStr (v : JVal) (s : String) : Bool :=
  match v with
  | .str t => t == s
  | _ => false

/-- Python `key in v` for a string `key` (membership test on a dict, a list or
a string; raises `TypeError` on non-containers). -/
def pyIn (key : String) (v : JVal) : Except String Bool :=
  match v with
  | .obj kvs => .ok (kvs.any (fun p => p.1 == key))
  | .arr xs => .ok (xs.any (fun x => pyEqStr x key))
  | .str s => .ok (containsSub key.data s.data)
  | _ => .error "TypeError: argument is not iterable"

/-- Python `v[key]` for a string `key` (dict subscript; raises `TypeError` on
lists/strings indexed by a string, `KeyError` on a missing key). -/
def pySub (v : JVal) (key : String) : Except String JVal :=
  match v with
  | .obj kvs =>
    match kvs.lookup key with
    | some x => .ok x
    | none => .error ("KeyError: " ++ key)
  | .str _ => .error "TypeError: string indices must be integers"
  | .arr _ => .error "TypeError: list indices must be integers"
  | _ => .error "TypeError: object is not subscriptable"

/-- Python `v.get(key, default)` (exists on dicts only; anything else raises
`AttributeError`). -/
def pyGet (v : JVal) (key : String) (default : JVal) : Except String JVal :=
  match v with
  | .obj kvs => .ok ((kvs.lookup key).getD default)
  | _ => .error "AttributeError: object has no attribute get"

/-- Python `isinstance(v, (int, float))` on a parsed JSON value.  A JSON
`true`/`false` parses to a Python `bool`, which is a subtype of `int`. -/
def pyIsNumeric (v : JVal) : Bool :=
  match v with
  | .num _ => true
  | .bool _ => true
  | _ => false

/-- The numeric value Python compares with `1.1` (`bool` counts as `0`/`1`;
other cases never reach the comparison, which is guarded by `pyIsNumeric`). -/
def pyNumVal (v : JVal) : ℚ :=
  match v with
  | .num q => q
  | .bool b => if b then 1 else 0
  | _ => 0

/-- Python `str(v)` as interpolated into the feedback f-string; `numRepr` is
the external float formatting.  Only the `num`/`bool` cases are reachable in
the feedback message (the interpolation is guarded by `pyIsNumeric`). -/
def jvalText (numRepr : ℚ → String) (v : JVal) : String :=
  match v with
  | .num q => numRepr q
  | .bool b => if b then "True" else "False"
  | .str s => s
  | .null => "None"
  | .arr _ => "[...]"
  | .obj _ => "\x7b...\x7d"

/-- The text of the feedback f-string (agent.py lines 109–115) before the
interpolated ratio. -/
def feedbackPre : String :=
  "System Feedback: The optimization proposed only shows an improvement ratio of "

/-- The text of the feedback f-string after the interpolated ratio. -/
def feedbackPost : String :=
  ". This is considered insufficient (< 1.1). Please try a DIFFERENT approach (e.g. check for missing indexes, different join types, or schema changes). If you firmly believe no further optimization is possible, please set \x27recommendation\x27 to \x27reject\x27 and explain why in \x27explanation\x27."

/-- The feedback message of agent.py lines 109–115, as a function of the
interpolated ratio text. -/
def feedbackTemplate (ratioText : String) : String :=
  feedbackPre ++ ratioText ++ feedbackPost

/-- The feedback-controller step of `SQLAgent.optimize` (agent.py lines
86–121), applied to the parsed final answer: `.ok none` means Accept (return
the parsed result), `.ok (some msg)` means Retry with critique `msg`, and
`.error e` models an uncaught Python exception raised while inspecting the
value (only `json.JSONDecodeError` is caught by the source). -/
def feedbackDecision (numRepr : ℚ → String) (final_result : JVal) :
    Except String (Option String) := do
  let hasValidation ← pyIn "validation" final_result
  let hasPerf ←
    if hasValidation then do
      let v ← pySub final_result "validation"
      pyIn "performance_check" v
    else
      pure false
  if hasPerf then do
    let v ← pySub final_result "validation"
    let perf ← pySub v "performance_check"
    let rv ← pyGet perf "improvement_ratio" (.num 1)
    let _status ← pyGet perf "status" (.str "unknown")
    let recommendation ← pyGet final_result "recommendation" (.str "manual_review")
    let is_rejected := pyEqStr recommendation "reject"
    let is_minimal_gain := pyIsNumeric rv && decide (pyNumVal rv < 11/10)
    if !is_rejected && is_minimal_gain then
      pure (some (feedbackTemplate (jvalText numRepr rv)))
    else
      pure none
  else
    pure none

/-- The fenced-block unwrap of agent.py lines 75–80: take
`content.split("```json")[1].split("```")[0].strip()` when `"```json"` occurs,
else `content.split("```")[1].strip()` when `"```"` occurs, else the whole
text.  `split(sep)[1]` is the text between the first and second occurrence of
`sep` (or everything after the first occurrence when there is no second). -/
def unwrap (content : String) : String :=
  let c := content.data
  let fenceJson := "```json".data
  let fence := "```".data
  match findSplit fenceJson c with
  | some (_, rest) =>
    let seg := match findSplit fenceJson rest with
      | some (b, _) => b
      | none => rest
    let seg2 := match findSplit fence seg with
      | some (b, _) => b
      | none => seg
    ⟨pyStrip seg2⟩
  | none =>
    match findSplit fence c with
    | some (_, rest) =>
      let seg := match findSplit fence rest with
        | some (b, _) => b
        | none => rest
      ⟨pyStrip seg⟩
    | none => content

/-- One requested tool call, as delivered by the LLM client.  `arguments` is
the outcome of `json.loads(tool_call.function.arguments)`: an `Except.error`
models the `json.JSONDecodeError` raised on a malformed arguments string
(agent.py line 45, outside any try/except). -/
structure ToolCall where
  id : String
  name : String
  arguments : Except String JVal

/-- The assistant message returned by one `llm.chat` round-trip. -/
structure LLMMsg where
  content : Option String
  tool_calls : List ToolCall

/-- One conversation turn (the dicts appended to `messages`). -/
structure Message where
  role : String
  content : Option String
  tool_call_id : Option String := none
  name : Option String := none
  tool_calls : List ToolCall := []

/-- The assistant turn appended for an LLM reply (`message.model_dump()`). -/
def assistantMsg (m : LLMMsg) : Message :=
  { role := "assistant", content := m.content, tool_calls := m.tool_calls }

/-- Models `messages[-1].get("content") if messages else ""` (agent.py line 134). -/
def lastContent (messages : List Message) : Option String :=
  match messages.getLast? with
  | some m => m.content
  | none => some ""

/-- The `result` computed for one tool call (agent.py lines 50–60): the
unknown-tool report when `hasattr` fails, otherwise the invocation's return
value with any raised error converted to an error report. -/
def toolResultContent (hasTool : String → Bool)
    (runTool : String → JVal → Except String String) (name : String) (args : JVal) : String :=
  if hasTool name then
    match runTool name args with
    | .ok r => r
    | .error e => "Error executing " ++ name ++ ": " ++ e
  else
    "Error: Tool " ++ name ++ " not found"

/-- The tool-dispatch loop of agent.py lines 43–68.  `hasTool` models
`hasattr(self.tools, name)` and `runTool` the invocation
`tool_func(**arguments)` (`Except.error` models the function raising, which
the source catches).  Produces the tool-result turns, one per call, in order;
propagates the `json.JSONDecodeError` of a malformed arguments string. -/
def handleToolCalls (hasTool : String → Bool)
    (runTool : String → JVal → Except String String) :
    List ToolCall → Except String (List Message)
  | [] => .ok []
  | tc :: rest => do
    let args ← tc.arguments
    let result := toolResultContent hasTool runTool tc.name args
    let others ← handleToolCalls hasTool runTool rest
    .ok ({ role := "tool", content := some result,
           tool_call_id := some tc.id, name := some tc.name } :: others)

/-- Terminal outcome of `SQLAgent.optimize`: an accepted parsed result, the
parse-error payload `{"error": "Failed to parse Agent output", "raw_content": …}`,
or the budget-exhaustion payload `{"error": "Max iterations reached",
"last_message": …}`. -/
inductive Outcome where
  | result (v : JVal)
  | parseError (raw_content : String)
  | maxIterations (last_message : Option String)

/-- The `while iteration < self.max_iterations` loop of `SQLAgent.optimize`
(agent.py lines 30–135), with `fuel` the remaining iteration budget.  An
`Except.error` is an uncaught Python exception propagating out of `optimize`. -/
def optimizeLoop (llm : List Message → LLMMsg) (hasTool : String → Bool)
    (runTool : String → JVal → Except String String)
    (jsonLoads : String → Option JVal) (numRepr : ℚ → String) :
    Nat → List Message → Except String Outcome
  | 0, messages => .ok (.maxIterations (lastContent messages))
  | fuel + 1, messages =>
    let m := llm messages
    let messages := messages ++ [assistantMsg m]
    match m.tool_calls with
    | _ :: _ => do
      let toolMsgs ← handleToolCalls hasTool runTool m.tool_calls
      optimizeLoop llm hasTool runTool jsonLoads numRepr fuel (messages ++ toolMsgs)
    | [] =>
      match m.content with
      | none => .ok (.maxIterations (lastContent messages))
      | some content =>
        if content == "" then
          .ok (.maxIterations (lastContent messages))
        else
          match jsonLoads (unwrap content) with
          | none => .ok (.parseError content)
          | some final_result =>
            match feedbackDecision numRepr final_result with
            | .error e => .error e
            | .ok none => .ok (.result final_result)
            | .ok (some feedback) =>
              optimizeLoop llm hasTool runTool jsonLoads numRepr fuel
                (messages ++ [{ role := "user", content := some feedback }])

/-- Function `SQLAgent.optimize` (agent.py lines 18–135): seed the conversation with the
system instructions and the user request, then run the loop with the default
budget `max_iterations = 30`. -/
def optimize (llm : List Message → LLMMsg) (hasTool : String → Bool)
    (runTool : String → JVal → Except String String)
    (jsonLoads : String → Option JVal) (numRepr : ℚ → String)
    (systemPrompt sql database_type : String) : Except String Outcome :=
  optimizeLoop llm hasTool runTool jsonLoads numRepr 30
    [{ role := "system", content := some systemPrompt },
     { role := "user",
       content := some ("Please optimize this SQL for " ++ database_type ++ ":\n\n" ++ sql) }]

/-! ## Claim-side auxiliary definitions -/

/-- The semicolon clause exactly as the spec words it ("contains a
statement-separator `;` anywhere except possibly as the final character"):
`;` occurs among all but the last character of the raw text. -/
def specSemicolonNonFinal (sql : String) : Bool := sql.data.dropLast.contains ';'

/-- The decoded arguments of a tool call whose arguments string parsed
successfully (`.null` is a placeholder for the unreachable error case). -/
def toolArgsOf (tc : ToolCall) : JVal :=
  match tc.arguments with
  | .ok a => a
  | .error _ => .null

/-- The tool-result turn produced for one tool call with decodable
arguments. -/
def toolMessageOf (hasTool : String → Bool)
    (runTool : String → JVal → Except String String) (tc : ToolCall) : Message :=
  { role := "tool",
    content := some (toolResultContent hasTool runTool tc.name (toolArgsOf tc)),
    tool_call_id := some tc.id, name := some tc.name }

/-- The parsed final answer of the C1 counterexample: a
`validation.performance_check` block is present, `improvement_ratio` is
absent, and the recommendation is `manual_review`. -/
def v0 : JVal :=
  .obj [("validation", .obj [("performance_check", .obj [("status", .str "completed")])]),
        ("recommendation", .str "manual_review")]

/-- Python's `str` on the float `1.0` (concrete number formatting for the
closed counterexamples). -/
def nr0 : ℚ → String := fun _ => "1.0"

/-- A tool call with well-formed arguments for a known tool. -/
def tcGood : ToolCall := ⟨"call_1", "get_table_schema", .ok (.obj [("table_name", .str "users")])⟩

/-- A tool call with well-formed arguments naming an unknown tool. -/
def tcBad : ToolCall := ⟨"call_2", "nonexistent_tool", .ok (.obj [])⟩

/-- The two result sets of the C2 counterexample: the same two rows, in
opposite orders. -/
def rowsA : List Row := [[("a", .num 1)], [("a", .num 2)]]

/-- Reversal of `rowsA`. -/
def rowsB : List Row := [[("a", .num 2)], [("a", .num 1)]]

/-- A database oracle returning `rowsA` for the original statement and the
same rows in reverse order for any other statement. -/
def dbReorder : String → Except String (List Row) := fun s =>
  if s = "SELECT a FROM t ORDER BY a LIMIT 5" then .ok rowsA else .ok rowsB

/-! ## Helper lemmas -/

theorem str_data_append (a b : String) : (a ++ b).data = a.data ++ b.data := by
  cases a; cases b; rfl

theorem startsW_self_append (l t : List Char) : startsW l (l ++ t) = true := by
  induction l with
  | nil => rfl
  | cons a as ih => simp [startsW, ih]

theorem containsSub_self_append (n t : List Char) : containsSub n (n ++ t) = true := by
  cases n with
  | nil => cases t <;> rfl
  | cons a as =>
    have h := startsW_self_append (a :: as) t
    simp [containsSub]
    exact Or.inl h

theorem containsSub_append_right (n a b : List Char) (h : containsSub n b = true) :
    containsSub n (a ++ b) = true := by
  induction a with
  | nil => simpa using h
  | cons c cs ih => simp [containsSub, ih]

theorem startsW_append_r (n : List Char) :
    ∀ l r, startsW n l = true → startsW n (l ++ r) = true := by
  induction n with
  | nil => intro l r _; rfl
  | cons a as ih =>
    intro l r h
    cases l with
    | nil => simp [startsW] at h
    | cons b bs =>
      simp [startsW] at h ⊢
      exact ⟨h.1, ih bs r h.2⟩

theorem containsSub_append_left (n : List Char) :
    ∀ l r, containsSub n l = true → containsSub n (l ++ r) = true := by
  intro l
  induction l with
  | nil =>
    intro r h
    cases n with
    | nil => cases r <;> simp [containsSub, startsW]
    | cons a as => simp [containsSub, startsW] at h
  | cons c cs ih =>
    intro r h
    simp [containsSub] at h ⊢
    rcases h with h | h
    · exact Or.inl (startsW_append_r n (c :: cs) r h)
    · exact Or.inr (ih r h)

theorem containsSub_refl (n : List Char) : containsSub n n = true := by
  have h := containsSub_self_append n []
  simpa using h

theorem except_bind_ok {ε α β : Type} (a : α) (f : α → Except ε β) :
    (Except.ok a : Except ε α) >>= f = f a := rfl

theorem except_bind_error {ε α β : Type} (e : ε) (f : α → Except ε β) :
    (Except.error e : Except ε α) >>= f = .error e := rfl

theorem except_pure {ε α : Type} (a : α) :
    (pure a : Except ε α) = .ok a := rfl

theorem lookup_any {β : Type} (key : String) (kvs : List (String × β)) (v : β)
    (h : kvs.lookup key = some v) : kvs.any (fun p => p.1 == key) = true := by
  induction kvs with
  | nil => simp [List.lookup] at h
  | cons p t ih =>
    by_cases hk : key = p.1
    · subst hk; simp
    · have hk' : (key == p.1) = false := beq_false_of_ne hk
      rw [List.lookup] at h
      simp [hk'] at h
      simp [ih h, hk]

theorem length_insLe (le : α → α → Bool) (x : α) (l : List α) :
    (insLe le x l).length = l.length + 1 := by
  induction l with
  | nil => rfl
  | cons y ys ih =>
    by_cases h : le x y = true <;> simp [insLe, h, ih]

theorem length_sortLe (le : α → α → Bool) (l : List α) :
    (sortLe le l).length = l.length := by
  induction l with
  | nil => rfl
  | cons x xs ih => simp [sortLe, List.foldr] at ih ⊢; rw [length_insLe, ih]

theorem limit_in_appended (s : String) (m : Nat) :
    containsSub "LIMIT".data (pyUpper ((s ++ " LIMIT " ++ Nat.repr m).data)) = true := by
  rw [str_data_append, str_data_append]
  simp only [pyUpper, List.map_append, List.append_assoc]
  exact containsSub_append_right _ _ _ rfl

/-! ## Claim theorems -/

/-- C9 (corrected part: none — confirmed): `enforce_limit` is idempotent for
every SQL string; a text already containing a limit clause (case-insensitive
substring check on the uppercased text) is returned unchanged, and otherwise a
single row-count cap clause is appended. -/
theorem enforce_limit_idem (cfg : SecurityConfig) (s : String) :
    enforce_limit cfg (enforce_limit cfg s) = enforce_limit cfg s ∧
    (containsSub "LIMIT".data (pyUpper s.data) = true → enforce_limit cfg s = s) ∧
    (containsSub "LIMIT".data (pyUpper s.data) = false →
      enforce_limit cfg s = s ++ " LIMIT " ++ Nat.repr cfg.max_result_rows) := by
  by_cases h : containsSub "LIMIT".data (pyUpper s.data) = true
  · refine ⟨by simp [enforce_limit, h], fun _ => by simp [enforce_limit, h],
      fun hf => absurd h (by simp [hf])⟩
  · have h' : containsSub "LIMIT".data (pyUpper s.data) = false := by
      simpa using h
    have hap := limit_in_appended s cfg.max_result_rows
    have h1 : enforce_limit cfg s = s ++ " LIMIT " ++ Nat.repr cfg.max_result_rows := by
      unfold enforce_limit
      rw [h']
      simp
    refine ⟨?_, fun ht => absurd ht h, fun _ => h1⟩
    rw [h1]
    unfold enforce_limit
    rw [hap]
    simp

/-- Witness for C9: a statement with no limit clause gets the cap appended, and
a second application leaves the text unchanged. -/
theorem enforce_limit_idem_witness :
    enforce_limit defaultSecurity "SELECT 1" =
      "SELECT 1" ++ " LIMIT " ++ Nat.repr defaultSecurity.max_result_rows ∧
    enforce_limit defaultSecurity (enforce_limit defaultSecurity "SELECT 1") =
      enforce_limit defaultSecurity "SELECT 1" :=
  ⟨(enforce_limit_idem defaultSecurity "SELECT 1").2.2 rfl,
   (enforce_limit_idem defaultSecurity "SELECT 1").1⟩

/-- C7 (amended): `validate_sql` returns unsafe iff the text contains a
whole-word case-insensitive forbidden operation, or contains `;` somewhere
other than as the final character of the whitespace-stripped text (the source
checks `";" in sql.strip()[:-1]`, so trailing whitespace after a final `;` is
ignored).  When the first matching forbidden operation is `op`, the reason
names `op`; a text with neither feature is accepted even if it contains the
comment tokens `--` or `/*`. -/
theorem validate_sql_decision (cfg : SecurityConfig) (sql : String) :
    ((validate_sql cfg sql).1 = false ↔
      (∃ op ∈ cfg.forbidden_operations, containsWord op.data sql.data = true) ∨
        ';' ∈ (pyStrip sql.data).dropLast) ∧
    (∀ op, cfg.forbidden_operations.find? (fun o => containsWord o.data sql.data) = some op →
      (validate_sql cfg sql).2 = some ("Forbidden operation detected: \\b" ++ op ++ "\\b") ∧
      containsSub op.data ("Forbidden operation detected: \\b" ++ op ++ "\\b").data = true) ∧
    ((∀ op ∈ cfg.forbidden_operations, containsWord op.data sql.data = false) →
      ';' ∉ (pyStrip sql.data).dropLast →
      validate_sql cfg sql = (true, none)) := by
  refine ⟨?_, ?_, ?_⟩
  · cases hf : cfg.forbidden_operations.find? (fun o => containsWord o.data sql.data) with
    | some op =>
      have hmem := List.mem_of_find?_eq_some hf
      have hp := List.find?_some hf
      constructor
      · intro _
        exact Or.inl ⟨op, hmem, by simpa using hp⟩
      · intro _
        simp [validate_sql, hf]
    | none =>
      have hno := List.find?_eq_none.mp hf
      by_cases hs : ';' ∈ (pyStrip sql.data).dropLast
      · simp [validate_sql, hf, hs]
      · constructor
        · intro hfalse
          simp [validate_sql, hf, hs] at hfalse
        · rintro (⟨op, hop, hw⟩ | hsemi)
          · exact absurd hw (by simpa using hno op hop)
          · exact absurd hsemi hs
  · intro op hf
    refine ⟨by simp [validate_sql, hf], ?_⟩
    rw [str_data_append, str_data_append, List.append_assoc]
    exact containsSub_append_right _ _ _ (containsSub_self_append _ _)
  · intro hno hs
    have hf : cfg.forbidden_operations.find? (fun o => containsWord o.data sql.data) = none :=
      List.find?_eq_none.mpr (fun op hop => by simp [hno op hop])
    simp [validate_sql, hf, hs]

/-- Witness for C7: a pure SELECT containing both comment tokens but no
forbidden word and no internal `;` is accepted. -/
theorem validate_sql_decision_witness :
    validate_sql defaultSecurity "SELECT id FROM users -- note /* c */" = (true, none) :=
  (validate_sql_decision defaultSecurity "SELECT id FROM users -- note /* c */").2.2
    (by decide) (by decide)

/-- Counterexample for C7 as stated: in `"SELECT 1; "` the `;` is not the final
character of the text (a space follows), so the claim's iff demands an unsafe
verdict, yet `validate_sql` accepts — the source strips whitespace before
exempting the final character. -/
theorem validate_sql_semicolon_counterexample :
    validate_sql defaultSecurity "SELECT 1; " = (true, none) ∧
    specSemicolonNonFinal "SELECT 1; " = true ∧
    defaultSecurity.forbidden_operations.all
      (fun op => !containsWord op.data "SELECT 1; ".data) = true := by
  exact ⟨rfl, rfl, by decide⟩

/-- C2 (amended): with both statements safe and both executions succeeding,
a row-count difference yields the row-count-mismatch verdict (nothing depends
on the content), and with equal counts the verdict compares the content
digests — per-row key-sorted, but row-order-preserving — `passed` exactly when
the digests agree, `failed/content_mismatch` otherwise. -/
theorem execute_and_compare_verdict (cfg : SecurityConfig)
    (db : String → Except String (List Row)) (original_sql optimized_sql : String)
    (ro rc : List Row)
    (ho : (validate_sql cfg original_sql).1 = true)
    (hc : (validate_sql cfg optimized_sql).1 = true)
    (hro : db (enforce_limit cfg original_sql) = .ok ro)
    (hrc : db (enforce_limit cfg optimized_sql) = .ok rc) :
    (ro.length ≠ rc.length →
      execute_and_compare cfg db original_sql optimized_sql =
        (.failed_row_count ro.length rc.length,
          [enforce_limit cfg original_sql, enforce_limit cfg optimized_sql])) ∧
    (ro.length = rc.length → digestRows ro = digestRows rc →
      execute_and_compare cfg db original_sql optimized_sql =
        (.passed ro.length,
          [enforce_limit cfg original_sql, enforce_limit cfg optimized_sql])) ∧
    (ro.length = rc.length → digestRows ro ≠ digestRows rc →
      execute_and_compare cfg db original_sql optimized_sql =
        (.failed_content,
          [enforce_limit cfg original_sql, enforce_limit cfg optimized_sql])) := by
  obtain ⟨e₁, ho'⟩ : ∃ e, validate_sql cfg original_sql = (true, e) :=
    ⟨(validate_sql cfg original_sql).2, by rw [← ho]⟩
  obtain ⟨e₂, hc'⟩ : ∃ e, validate_sql cfg optimized_sql = (true, e) :=
    ⟨(validate_sql cfg optimized_sql).2, by rw [← hc]⟩
  refine ⟨fun hne => ?_, fun heq hdig => ?_, fun heq hdig => ?_⟩
  · simp [execute_and_compare, ho', hc', hro, hrc, hne]
  · simp [execute_and_compare, ho', hc', hro, hrc, heq, hdig]
  · simp [execute_and_compare, ho', hc', hro, hrc, heq, hdig]

/-- Witness for C2. -/
theorem execute_and_compare_verdict_witness :
    execute_and_compare defaultSecurity (fun _ => .ok rowsA) "SELECT 1" "SELECT 2" =
      (.passed rowsA.length,
        [enforce_limit defaultSecurity "SELECT 1", enforce_limit defaultSecurity "SELECT 2"]) :=
  (execute_and_compare_verdict defaultSecurity (fun _ => .ok rowsA) "SELECT 1" "SELECT 2"
    rowsA rowsA (by decide) (by decide) rfl rfl).2.1 rfl rfl

/-- Counterexample for C2 as stated: two executions returning the same rows as
each other (a permutation — identical content) but in different physical
orders produce `failed/content_mismatch`, not `passed`: the digest of
`json.dumps(res, sort_keys=True)` sorts keys within each row but preserves row
order, so it is not order-independent across rows. -/
theorem execute_and_compare_order_counterexample :
    rowsA.Perm rowsB ∧
    execute_and_compare defaultSecurity dbReorder
      "SELECT a FROM t ORDER BY a LIMIT 5" "SELECT a FROM t ORDER BY a DESC LIMIT 5" =
      (.failed_content,
        ["SELECT a FROM t ORDER BY a LIMIT 5", "SELECT a FROM t ORDER BY a DESC LIMIT 5"]) := by
  constructor
  · exact List.Perm.swap _ _ _
  · rfl

/-- C5: a Safety-Guard rejection short-circuits both tools before any database
execution: the returned payload carries the rejection reason and the list
(resp. count) of statements handed to the database is empty (zero). -/
theorem unsafe_never_reaches_db (cfg : SecurityConfig)
    (db : String → Except String (List Row)) (original_sql optimized_sql : String)
    (run : Nat → Except String Unit) (times : Nat → ℚ) (sql : String) (runs : Nat) :
    (∀ r, validate_sql cfg original_sql = (false, r) →
      execute_and_compare cfg db original_sql optimized_sql =
        (.error ("Original SQL unsafe: " ++ r.getD ""), [])) ∧
    (∀ r, (validate_sql cfg original_sql).1 = true →
      validate_sql cfg optimized_sql = (false, r) →
      execute_and_compare cfg db original_sql optimized_sql =
        (.error ("Optimized SQL unsafe: " ++ r.getD ""), [])) ∧
    (∀ r, validate_sql cfg sql = (false, r) →
      measure_performance cfg run times sql runs = (.error (r.getD ""), 0)) := by
  refine ⟨fun r h => ?_, fun r ho h => ?_, fun r h => ?_⟩
  · simp [execute_and_compare, h]
  · obtain ⟨e₁, ho'⟩ : ∃ e, validate_sql cfg original_sql = (true, e) :=
      ⟨(validate_sql cfg original_sql).2, by rw [← ho]⟩
    simp [execute_and_compare, ho', h]
  · simp [measure_performance, h]

/-- Witness for C5: a `DROP` statement is rejected by both tools with the
rejection reason and no database executions. -/
theorem unsafe_never_reaches_db_witness :
    execute_and_compare defaultSecurity (fun _ => .ok rowsA) "DROP TABLE users" "SELECT 1" =
      (.error ("Original SQL unsafe: " ++
        (some "Forbidden operation detected: \\bDROP\\b").getD ""), []) ∧
    measure_performance defaultSecurity (fun _ => .ok ()) (fun _ => 0) "DROP TABLE users" 3 =
      (.error ((some "Forbidden operation detected: \\bDROP\\b").getD ""), 0) :=
  ⟨(unsafe_never_reaches_db defaultSecurity (fun _ => .ok rowsA) "DROP TABLE users" "SELECT 1"
      (fun _ => .ok ()) (fun _ => 0) "DROP TABLE users" 3).1
      (some "Forbidden operation detected: \\bDROP\\b") (by decide),
   (unsafe_never_reaches_db defaultSecurity (fun _ => .ok rowsA) "DROP TABLE users" "SELECT 1"
      (fun _ => .ok ()) (fun _ => 0) "DROP TABLE users" 3).2.2
      (some "Forbidden operation detected: \\bDROP\\b") (by decide)⟩

theorem runTimes_all_ok (run : Nat → Except String Unit) (times : Nat → ℚ) :
    ∀ (n i : Nat), (∀ j, j < n → run (i + j) = .ok ()) →
      runTimes run times i n = (.ok ((List.range n).map (fun j => times (i + j))), n) := by
  intro n
  induction n with
  | zero => intro i _; rfl
  | succ n ih =>
    intro i h
    have h0 : run i = .ok () := by simpa using h 0 (Nat.succ_pos n)
    have hrec := ih (i + 1) (fun j hj => by
      have h2 := h (j + 1) (by omega)
      have he : i + (j + 1) = i + 1 + j := by omega
      rw [he] at h2
      exact h2)
    have hfun : (fun j => times (i + 1 + j)) = ((fun j : Nat => times (i + j)) ∘ Nat.succ) := by
      funext j
      simp only [Function.comp]
      congr 1
      omega
    have hlist : times i :: (List.range n).map (fun j => times (i + 1 + j)) =
        (List.range (n + 1)).map (fun j => times (i + j)) := by
      rw [List.range_succ_eq_map, List.map_cons, List.map_map]
      congr 1
      rw [hfun]
    simp only [runTimes, h0, hrec]
    rw [← hlist]
    simp [Except.map]

/-- C8 (amended): with safe SQL, `runs = N ≥ 1` and all `N` executions
succeeding, the summary is built from exactly `N` timing samples, reports
their minimum, maximum, and arithmetic mean, and its `median_ms` is the
ascending-sorted sample's entry at index `⌊N/2⌋` (an index always in range) —
for even `N` the greater of the two middle values. -/
theorem measure_performance_summary (cfg : SecurityConfig)
    (run : Nat → Except String Unit) (times : Nat → ℚ) (sql : String) (n : Nat)
    (hsafe : (validate_sql cfg sql).1 = true)
    (hok : ∀ i, i < n → run i = .ok ())
    (hn : 1 ≤ n) :
    ((List.range n).map times).length = n ∧
    measure_performance cfg run times sql n =
      (.summary (pyMinD ((List.range n).map times)) (pyMaxD ((List.range n).map times))
        (((List.range n).map times).sum / (n : ℚ))
        ((sortLe qLe ((List.range n).map times)).getD (n / 2) 0) n, n) ∧
    n / 2 < (sortLe qLe ((List.range n).map times)).length := by
  obtain ⟨e, hv⟩ : ∃ e, validate_sql cfg sql = (true, e) :=
    ⟨(validate_sql cfg sql).2, by rw [← hsafe]⟩
  have hrt := runTimes_all_ok run times n 0 (fun j hj => by simpa using hok j hj)
  simp only [Nat.zero_add] at hrt
  have hlen : ((List.range n).map times).length = n := by simp
  have hne : ((List.range n).map times).isEmpty = false := by
    cases hnil : (List.range n).map times with
    | nil => rw [hnil] at hlen; simp at hlen; omega
    | cons a l => simp
  refine ⟨hlen, ?_, ?_⟩
  · simp only [measure_performance, hv, hrt, hne, Bool.false_eq_true, if_false, hlen]
  · rw [length_sortLe, hlen]
    exact Nat.div_lt_self (by omega) (by norm_num)

/-- Witness for C8: three successful runs with durations 3, 1, 2 ms yield the
five-field summary with median the middle sorted sample. -/
theorem measure_performance_summary_witness :
    measure_performance defaultSecurity (fun _ => .ok ())
      (fun i => if i = 0 then 3 else if i = 1 then 1 else 2) "SELECT 1" 3 =
      (.summary
        (pyMinD ((List.range 3).map (fun i => if i = 0 then 3 else if i = 1 then 1 else 2)))
        (pyMaxD ((List.range 3).map (fun i => if i = 0 then 3 else if i = 1 then 1 else 2)))
        (((List.range 3).map (fun i => if i = 0 then (3:ℚ) else if i = 1 then 1 else 2)).sum / (3 : ℚ))
        ((sortLe qLe ((List.range 3).map
          (fun i => if i = 0 then (3:ℚ) else if i = 1 then 1 else 2))).getD (3 / 2) 0) 3, 3) :=
  (measure_performance_summary defaultSecurity (fun _ => .ok ())
    (fun i => if i = 0 then 3 else if i = 1 then 1 else 2) "SELECT 1" 3
    (by decide) (fun _ _ => rfl) (by omega)).2.1

/-- Counterexample for C8 as stated: with `runs = 2` and samples 7 ms then
5 ms, the sorted samples are `[5, 7]` and `median_ms` is the entry at index
`⌊2/2⌋ = 1`, namely `7` — the *greater* of the two middle values, not the
lower one the claim describes; and with `runs = 0` the call returns an error
payload (Python's `min([])` raises) rather than a summary built from zero
samples. -/
theorem measure_performance_counterexample :
    measure_performance defaultSecurity (fun _ => .ok ())
      (fun i => if i = 0 then 7 else 5) "SELECT 1" 2 =
      (.summary 5 7 ([(7:ℚ), 5].sum / (([(7:ℚ), 5].length : Nat) : ℚ)) 7 2, 2) ∧
    sortLe qLe ((List.range 2).map (fun i => if i = 0 then (7:ℚ) else 5)) = [5, 7] ∧
    measure_performance defaultSecurity (fun _ => .ok ())
      (fun i => if i = 0 then 7 else 5) "SELECT 1" 0 =
      (.error "min() arg is an empty sequence", 0) := by
  refine ⟨?_, ?_, ?_⟩
  · rfl
  · rfl
  · rfl

set_option maxRecDepth 8192 in
/-- C3: the feedback-controller policy: a `reject` recommendation is always
accepted regardless of any ratio; a present numeric ratio below 1.1 with a
non-`reject` recommendation triggers a Retry whose critique states the
measured ratio, calls it insufficient, and instructs the agent to try a
different approach or set its recommendation to `reject`; a numeric ratio
at/above 1.1 is accepted; and a Retry appends the critique as a user turn and
continues into the next loop iteration, consuming budget. -/
theorem feedback_policy (numRepr : ℚ → String) (kvs vks pks : List (String × JVal)) (q : ℚ)
    (hval : kvs.lookup "validation" = some (.obj vks))
    (hperf : vks.lookup "performance_check" = some (.obj pks)) :
    ((kvs.lookup "recommendation" = some (.str "reject") →
      feedbackDecision numRepr (.obj kvs) = .ok none) ∧
     (pks.lookup "improvement_ratio" = some (.num q) →
      pyEqStr ((kvs.lookup "recommendation").getD (.str "manual_review")) "reject" = false →
      q < 11/10 →
      feedbackDecision numRepr (.obj kvs) = .ok (some (feedbackTemplate (numRepr q)))) ∧
     (pks.lookup "improvement_ratio" = some (.num q) → 11/10 ≤ q →
      feedbackDecision numRepr (.obj kvs) = .ok none)) ∧
    (containsSub (numRepr q).data (feedbackTemplate (numRepr q)).data = true ∧
     containsSub "insufficient".data (feedbackTemplate (numRepr q)).data = true ∧
     containsSub "DIFFERENT approach".data (feedbackTemplate (numRepr q)).data = true ∧
     containsSub "set \x27recommendation\x27 to \x27reject\x27".data
       (feedbackTemplate (numRepr q)).data = true) ∧
    (∀ (llm : List Message → LLMMsg) (hasTool : String → Bool)
       (runTool : String → JVal → Except String String)
       (jsonLoads : String → Option JVal) (fuel : Nat) (messages : List Message)
       (c fb : String) (v : JVal),
      (llm messages).tool_calls = [] → (llm messages).content = some c → c ≠ "" →
      jsonLoads (unwrap c) = some v →
      feedbackDecision numRepr v = .ok (some fb) →
      optimizeLoop llm hasTool runTool jsonLoads numRepr (fuel + 1) messages =
        optimizeLoop llm hasTool runTool jsonLoads numRepr fuel
          (messages ++ [assistantMsg (llm messages)] ++
            [{ role := "user", content := some fb }])) := by
  have hv1 := lookup_any "validation" kvs _ hval
  have hv2 := lookup_any "performance_check" vks _ hperf
  have hdata : (feedbackTemplate (numRepr q)).data =
      (feedbackPre.data ++ (numRepr q).data) ++ feedbackPost.data := by
    rw [feedbackTemplate, str_data_append, str_data_append]
  refine ⟨⟨?_, ?_, ?_⟩, ⟨?_, ?_, ?_, ?_⟩, ?_⟩
  · intro hrecl
    simp [feedbackDecision, pyIn, pySub, pyGet, pyEqStr, hval, hperf, hv1, hv2, hrecl,
      except_bind_ok, except_pure]
  · intro hr hrne hq
    simp [feedbackDecision, pyIn, pySub, pyGet, hval, hperf, hv1, hv2, hr, hrne,
      pyIsNumeric, pyNumVal, jvalText, hq, except_bind_ok, except_pure]
  · intro hr hge
    have hnl : ¬ q < 11/10 := not_lt.mpr hge
    simp [feedbackDecision, pyIn, pySub, pyGet, hval, hperf, hv1, hv2, hr,
      pyIsNumeric, pyNumVal, hnl, except_bind_ok, except_pure]
  · rw [hdata]
    exact containsSub_append_left _ _ _ (containsSub_append_right _ _ _ (containsSub_refl _))
  · rw [hdata]
    exact containsSub_append_right _ _ _ rfl
  · rw [hdata]
    exact containsSub_append_right _ _ _ rfl
  · rw [hdata]
    exact containsSub_append_right _ _ _ rfl
  · intro llm hasTool runTool jsonLoads fuel messages c fb v h1 h2 h3 h4 h5
    have hc : (c == "") = false := by simp [h3]
    simp [optimizeLoop, h1, h2, hc, h4, h5]

/-- Witness for C3: a parsed answer with ratio 1.05 and recommendation
`manual_review` triggers a Retry with the critique built from the rendered
ratio. -/
theorem feedback_policy_witness :
    feedbackDecision nr0
      (.obj [("validation", .obj [("performance_check",
                .obj [("improvement_ratio", .num (21/20))])]),
             ("recommendation", .str "manual_review")]) =
      .ok (some (feedbackTemplate (nr0 (21/20)))) :=
  ((feedback_policy nr0
      [("validation", .obj [("performance_check",
          .obj [("improvement_ratio", .num (21/20))])]),
       ("recommendation", .str "manual_review")]
      [("performance_check", .obj [("improvement_ratio", .num (21/20))])]
      [("improvement_ratio", .num (21/20))]
      (21/20) rfl rfl).1.2.1) rfl rfl (by norm_num)

/-- C1 (amended): a present `performance_check` block whose
`improvement_ratio` key is absent makes `perf.get("improvement_ratio", 1.0)`
default to 1.0, which is numeric and < 1.1 — so with a non-`reject`
recommendation the controller issues a Retry (whose critique reports the
ratio 1.0) instead of accepting. -/
theorem feedback_missing_improvement (numRepr : ℚ → String)
    (kvs vks pks : List (String × JVal))
    (hval : kvs.lookup "validation" = some (.obj vks))
    (hperf : vks.lookup "performance_check" = some (.obj pks))
    (hnone : pks.lookup "improvement_ratio" = none)
    (hrec : pyEqStr ((kvs.lookup "recommendation").getD (.str "manual_review")) "reject"
      = false) :
    feedbackDecision numRepr (.obj kvs) = .ok (some (feedbackTemplate (numRepr 1))) := by
  have hv1 := lookup_any "validation" kvs _ hval
  have hv2 := lookup_any "performance_check" vks _ hperf
  have h11 : (1 : ℚ) < 11/10 := by norm_num
  simp [feedbackDecision, pyIn, pySub, pyGet, hval, hperf, hv1, hv2, hnone, hrec,
    pyIsNumeric, pyNumVal, jvalText, h11, except_bind_ok, except_pure]

/-- Witness for C1's amended statement. -/
theorem feedback_missing_improvement_witness :
    feedbackDecision nr0 v0 = .ok (some (feedbackTemplate (nr0 1))) :=
  feedback_missing_improvement nr0
    [("validation", .obj [("performance_check", .obj [("status", .str "completed")])]),
     ("recommendation", .str "manual_review")]
    [("performance_check", .obj [("status", .str "completed")])]
    [("status", .str "completed")] rfl rfl rfl rfl

/-- Counterexample for C1 as stated: on a parsed answer whose
`performance_check` block is present, whose `improvement_ratio` is absent and
whose recommendation is `manual_review`, the controller returns a Retry
critique (reporting the defaulted ratio 1.0), and an orchestrator run on that
answer appends the critique and keeps iterating instead of returning the
parsed result. -/
theorem missing_improvement_accept_counterexample :
    feedbackDecision nr0 v0 = .ok (some (feedbackTemplate "1.0")) ∧
    optimizeLoop (fun _ => ⟨some "X", []⟩) (fun _ => false) (fun _ _ => .ok "")
      (fun _ => some v0) nr0 1 [] =
      .ok (.maxIterations (some (feedbackTemplate "1.0"))) := by
  have h11 : (1 : ℚ) < 11/10 := by norm_num
  have hfd : feedbackDecision nr0 v0 = .ok (some (feedbackTemplate "1.0")) := by
    simp [feedbackDecision, v0, pyIn, pySub, pyGet, pyEqStr, pyIsNumeric, pyNumVal,
      jvalText, nr0, List.lookup, h11, except_bind_ok, except_pure]
  refine ⟨hfd, ?_⟩
  simp [optimizeLoop, hfd, lastContent, assistantMsg]

/-- C4 (amended): tool calls are processed in order, producing exactly one
tool-result turn per call (in order, carrying the originating call id and
name); an unknown tool yields the synthesized unknown-tool report and a
raised tool error is converted to an error report, after which the loop
continues — but an arguments string that fails JSON decoding raises outside
the capture and aborts the whole invocation. -/
theorem tool_dispatch (hasTool : String → Bool)
    (runTool : String → JVal → Except String String) :
    (∀ calls : List ToolCall, (∀ tc ∈ calls, ∃ a, tc.arguments = .ok a) →
      handleToolCalls hasTool runTool calls =
        .ok (calls.map (toolMessageOf hasTool runTool))) ∧
    (∀ tc : ToolCall, (toolMessageOf hasTool runTool tc).role = "tool" ∧
      (toolMessageOf hasTool runTool tc).tool_call_id = some tc.id ∧
      (toolMessageOf hasTool runTool tc).name = some tc.name ∧
      (toolMessageOf hasTool runTool tc).content =
        some (toolResultContent hasTool runTool tc.name (toolArgsOf tc))) ∧
    (∀ name args, hasTool name = false →
      toolResultContent hasTool runTool name args = "Error: Tool " ++ name ++ " not found") ∧
    (∀ name args e, hasTool name = true → runTool name args = .error e →
      toolResultContent hasTool runTool name args =
        "Error executing " ++ name ++ ": " ++ e) ∧
    (∀ (llm : List Message → LLMMsg) (jsonLoads : String → Option JVal)
       (numRepr : ℚ → String) (fuel : Nat) (messages : List Message) (tms : List Message),
      (llm messages).tool_calls ≠ [] →
      handleToolCalls hasTool runTool (llm messages).tool_calls = .ok tms →
      optimizeLoop llm hasTool runTool jsonLoads numRepr (fuel + 1) messages =
        optimizeLoop llm hasTool runTool jsonLoads numRepr fuel
          (messages ++ [assistantMsg (llm messages)] ++ tms)) ∧
    (∀ (pre post : List ToolCall) (tc : ToolCall) (e : String),
      (∀ x ∈ pre, ∃ a, x.arguments = .ok a) → tc.arguments = .error e →
      handleToolCalls hasTool runTool (pre ++ tc :: post) = .error e) := by
  refine ⟨?_, fun tc => ⟨rfl, rfl, rfl, rfl⟩, ?_, ?_, ?_, ?_⟩
  · intro calls
    induction calls with
    | nil => intro _; rfl
    | cons tc rest ih =>
      intro h
      obtain ⟨a, ha⟩ := h tc (by simp)
      have hrest := ih (fun x hx => h x (by simp [hx]))
      simp [handleToolCalls, ha, hrest, toolMessageOf, toolArgsOf, except_bind_ok]
  · intro name args h
    simp [toolResultContent, h]
  · intro name args e h herr
    simp [toolResultContent, h, herr]
  · intro llm jsonLoads numRepr fuel messages tms h1 h2
    cases hcalls : (llm messages).tool_calls with
    | nil => exact absurd hcalls h1
    | cons a t =>
      rw [hcalls] at h2
      simp [optimizeLoop, hcalls, h2, except_bind_ok]
  · intro pre post tc e hpre he
    induction pre with
    | nil => simp [handleToolCalls, he, except_bind_error]
    | cons x xs ih =>
      obtain ⟨a, ha⟩ := hpre x (by simp)
      have hrec := ih (fun y hy => hpre y (by simp [hy]))
      simp [handleToolCalls, ha, hrec, except_bind_ok, except_bind_error]

/-- Witness for C4: one known-tool call and one unknown-tool call both get a
tool-result turn, in order. -/
theorem tool_dispatch_witness :
    handleToolCalls (fun n => n == "get_table_schema") (fun _ _ => .ok "schema") [tcGood, tcBad] =
      .ok ([tcGood, tcBad].map
        (toolMessageOf (fun n => n == "get_table_schema") (fun _ _ => .ok "schema"))) :=
  (tool_dispatch (fun n => n == "get_table_schema") (fun _ _ => .ok "schema")).1 [tcGood, tcBad]
    (by
      intro tc htc
      fin_cases htc
      · exact ⟨_, rfl⟩
      · exact ⟨_, rfl⟩)

/-- Counterexample for C4 as stated: a single tool call whose arguments string
does not parse as JSON makes the whole invocation raise
(`json.loads(tool_call.function.arguments)` is evaluated outside the
try/except), aborting the conversation with no tool-result turn. -/
theorem tool_dispatch_abort_counterexample :
    optimizeLoop
      (fun _ => ⟨none, [⟨"call_1", "get_table_schema",
        .error "Expecting value: line 1 column 1 (char 0)"⟩]⟩)
      (fun _ => true) (fun _ _ => .ok "ok") (fun _ => none) (fun _ => "") 3 [] =
      .error "Expecting value: line 1 column 1 (char 0)" := rfl

/-- C6: a final answer (no tool calls, non-empty content) whose unwrapped
payload fails JSON decoding makes the orchestrator return the parse-error
outcome carrying the raw reply text on that very iteration, for every
remaining budget — no further message is appended and no further budget is
consumed. -/
theorem parse_error_immediate (llm : List Message → LLMMsg) (hasTool : String → Bool)
    (runTool : String → JVal → Except String String) (jsonLoads : String → Option JVal)
    (numRepr : ℚ → String) (fuel : Nat) (messages : List Message) (c : String)
    (h1 : (llm messages).tool_calls = [])
    (h2 : (llm messages).content = some c)
    (h3 : c ≠ "")
    (h4 : jsonLoads (unwrap c) = none) :
    optimizeLoop llm hasTool runTool jsonLoads numRepr (fuel + 1) messages =
      .ok (.parseError c) := by
  have hc : (c == "") = false := by simp [h3]
  simp [optimizeLoop, h1, h2, hc, h4]

/-- Witness for C6. -/
theorem parse_error_immediate_witness :
    optimizeLoop (fun _ => ⟨some "not json", []⟩) (fun _ => false) (fun _ _ => .ok "")
      (fun _ => none) (fun _ => "") 5 [] = .ok (.parseError "not json") :=
  parse_error_immediate (fun _ => ⟨some "not json", []⟩) (fun _ => false) (fun _ _ => .ok "")
    (fun _ => none) (fun _ => "") 4 [] "not json" rfl rfl (by simp) rfl

/-- C10: a reply with no tool calls and empty/absent content breaks the loop
on that iteration: for any remaining budget, the orchestrator returns the
"Max iterations reached" outcome carrying the just-appended assistant turn's
(empty) content — never an accepted result and never a parse-error outcome. -/
theorem empty_reply_budget_outcome (llm : List Message → LLMMsg) (hasTool : String → Bool)
    (runTool : String → JVal → Except String String) (jsonLoads : String → Option JVal)
    (numRepr : ℚ → String) (fuel : Nat) (messages : List Message)
    (h1 : (llm messages).tool_calls = [])
    (h2 : (llm messages).content = none ∨ (llm messages).content = some "") :
    optimizeLoop llm hasTool runTool jsonLoads numRepr (fuel + 1) messages =
      .ok (.maxIterations ((llm messages).content)) := by
  rcases h2 with h2 | h2 <;>
    simp [optimizeLoop, h1, h2, lastContent, assistantMsg]

/-- Witness for C10. -/
theorem empty_reply_budget_outcome_witness :
    optimizeLoop (fun _ => ⟨none, []⟩) (fun _ => false) (fun _ _ => .ok "")
      (fun _ => none) (fun _ => "") 7 [] = .ok (.maxIterations none) :=
  empty_reply_budget_outcome (fun _ => ⟨none, []⟩) (fun _ => false) (fun _ _ => .ok "")
    (fun _ => none) (fun _ => "") 6 [] rfl (Or.inl rfl)

end SQLPilot
